import Mathlib

/-!
Verification of the JPX multiple-file downloader (src/jpx_downloader.py).

The script scrapes two JPX pages for download links and fetches up to three
data files per run.  We embed it shallowly:

* Parsed HTML is a tree of `Node`s (elements with tag, attributes and
  children, and text nodes).  BeautifulSoup's `next_element` chain visits the
  document in pre-order (an element, then its descendants, then what follows),
  so the traversal order is the pre-order flattening `flattenList`.
* Python string operations (`lower`, `strip`, `startswith`, `in`) are embedded
  character-listwise on `String.data`.
* The network, the clock and the filesystem are oracles in a `World` record;
  each download function returns its boolean result together with the ordered
  trace of externally visible events (directory creation, HTTP GET, file
  write, log lines), so that "no I/O happened" and "exactly one attempt" are
  statable.  A caught Python exception is an oracle answering with an error
  message; the `try/except` blocks turn it into a `false` result plus a
  logged error, which is how the functions are modelled.
-/

/-- Python str.lower, character by character. -/
def strLower (s : String) : String := String.mk (s.data.map Char.toLower)

/-- Python str.strip: drop whitespace from both ends. -/
def pyStrip (s : String) : String :=
  String.mk (((s.data.dropWhile Char.isWhitespace).reverse.dropWhile Char.isWhitespace).reverse)

/-- Python str.startswith. -/
def strStartsWith (s p : String) : Bool := p.data.isPrefixOf s.data

/-- Python str.endswith. -/
def strEndsWith (s p : String) : Bool := p.data.isSuffixOf s.data

/-- Substring test on character lists: some suffix of the haystack has the
needle as a prefix. -/
def listContains (hay needle : List Char) : Bool :=
  match hay with
  | [] => needle.isEmpty
  | _ :: t => needle.isPrefixOf hay || listContains t needle

/-- Python `needle in hay` for strings. -/
def strContains (hay needle : String) : Bool := listContains hay.data needle.data

/-- A parsed HTML node: an element with tag name, attribute list and children,
or a bare text node (bs4 NavigableString). -/
inductive Node where
  | element (tag : String) (attrs : List (String × String)) (children : List Node)
  | text (s : String)

mutual

/-- Pre-order flattening of a node: the node itself, then its descendants in
document order.  This is the order in which bs4 emits nodes, and the order of
the `next_element` chain. -/
def flatten : Node → List Node
  | Node.text s => [Node.text s]
  | Node.element t a cs => Node.element t a cs :: flattenList cs

/-- Pre-order flattening of a forest (e.g. a whole parsed document). -/
def flattenList : List Node → List Node
  | [] => []
  | n :: ns => flatten n ++ flattenList ns

end

mutual

/-- bs4 `get_text()`: concatenation of all text descendants, in order. -/
def getText : Node → String
  | Node.text s => s
  | Node.element _ _ cs => getTextList cs

/-- Concatenated text over a forest. -/
def getTextList : List Node → String
  | [] => ""
  | n :: ns => getText n ++ getTextList ns

end

/-- First value bound to a key in an attribute list (bs4 attribute lookup). -/
def attrLookup : List (String × String) → String → Option String
  | [], _ => none
  | (k, v) :: r, key => if k = key then some v else attrLookup r key

/-- Python `tag.get("href", "")`: the href attribute, defaulting to empty. -/
def hrefOrEmpty (n : Node) : String :=
  match n with
  | Node.element _ a _ => (attrLookup a "href").getD ""
  | Node.text _ => ""

/-- The predicate of `soup.find_all("a", href=lambda href: href and ".csv" in
href.lower())`: an anchor with a present, non-empty href containing ".csv"
case-insensitively. -/
def isCsvAnchor (n : Node) : Bool :=
  match n with
  | Node.element t a _ =>
      t == "a" &&
        (match attrLookup a "href" with
         | some h => !(h == "") && strContains (strLower h) ".csv"
         | none => false)
  | Node.text _ => false

/-- The JPX site origin used to absolutize relative hrefs. -/
def jpxBase : String := "https://www.jpx.co.jp"

/-- Lines 52-54 and 118-122 of the source: prefix the base origin unless the
href already starts with "http", inserting "/" unless the href starts with
one. -/
def makeAbsolute (b u : String) : String :=
  if strStartsWith u "http" then u
  else if strStartsWith u "/" then b ++ u
  else b ++ "/" ++ u

/-- Externally visible effects of the script, in order of occurrence. -/
inductive Event where
  | mkdir (d : String)
  | httpGet (u : String)
  | fileWrite (p : String) (content : List Nat)
  | logInfo (msg : String)
  | logError (msg : String)
deriving DecidableEq

/-- Outcome of `requests.get(page)` + `raise_for_status()` + parsing: either a
parsed document, or a raised exception (network/transport failure, non-2xx
status, or any parse error) carrying its message. -/
inductive Fetch where
  | ok (doc : List Node)
  | exn (msg : String)

/-- Model of `get_derivatives_csv_link`, abstracted over the page fetch: scan all
anchors for a ".csv" href, take the first in document order, absolutize it;
no links or a raised exception yield `none` plus a logged error. -/
def get_derivatives_csv_link (f : Fetch) : Option String × List Event :=
  match f with
  | Fetch.exn m =>
      (none, [Event.logError ("Error finding derivatives CSV link: " ++ m)])
  | Fetch.ok doc =>
      match (flattenList doc).filter isCsvAnchor with
      | [] => (none, [Event.logError "No CSV links found on the derivatives settlement page."])
      | a :: _ =>
          let u := makeAbsolute jpxBase (hrefOrEmpty a)
          (some u, [Event.logInfo ("Found derivatives CSV link: " ++ u)])

/-- The tag list of `soup.find_all(["h1",...,"h6","div","p"])`. -/
def headerTags : List String := ["h1", "h2", "h3", "h4", "h5", "h6", "div", "p"]

/-- Marker phrase of the IRS statistics section. -/
def statMarker : String := "Statistics for Interest Rate Swap(Daily)"

/-- Marker phrase of the IRS settlement-rates section. -/
def settlMarker : String := "Settlement Rates for Interest Rate Swap(Daily)"

/-- Line 99 of the source: href accepted for the statistics marker. -/
def statExtMatch (h : String) : Bool :=
  strContains (strLower h) ".xls" || strContains (strLower h) ".csv"

/-- Line 111 of the source: href accepted for the settlement-rates marker. -/
def settlExtMatch (h : String) : Bool :=
  strContains (strLower h) ".pdf" || strContains (strLower h) ".csv"

/-- A header element (one of the searched tags) whose stripped text contains
the marker phrase. -/
def isMarkerHeader (marker : String) (n : Node) : Bool :=
  match n with
  | Node.element t a cs =>
      headerTags.contains t && strContains (pyStrip (getText (Node.element t a cs))) marker
  | Node.text _ => false

/-- An anchor element whose href (default "") satisfies the extension
predicate (line 97/109-111 of the source). -/
def anchorMatch (f : String → Bool) (n : Node) : Bool :=
  match n with
  | Node.element t a _ => t == "a" && f ((attrLookup a "href").getD "")
  | Node.text _ => false

/-- The header loop of `get_interest_rate_swap_links` for one marker, over the
pre-order node sequence: at each header whose text contains the marker, walk
the `next_element` chain (= the remainder of the sequence) for the first
matching anchor; the first marker occurrence that finds one wins. -/
def scanHeaders (marker : String) (f : String → Bool) : List Node → Option String
  | [] => none
  | n :: rest =>
      if isMarkerHeader marker n then
        match rest.find? (anchorMatch f) with
        | some a => some (hrefOrEmpty a)
        | none => scanHeaders marker f rest
      else scanHeaders marker f rest

/-- Result dictionary of `get_interest_rate_swap_links`: it always has exactly
these two keys. -/
structure IrsLinks where
  statistics_link : Option String
  settlement_rates_link : Option String
deriving DecidableEq

/-- Lines 118-122 of the source: absolutize a found link unless it is empty
(Python truthiness guard) — a found link is never empty in fact. -/
def absolutizeOpt (o : Option String) : Option String :=
  match o with
  | none => none
  | some s => if s == "" then some s else some (makeAbsolute jpxBase s)

/-- The pure core of `get_interest_rate_swap_links` on a parsed document. -/
def irsLinksCore (doc : List Node) : IrsLinks :=
  let fl := flattenList doc
  ⟨absolutizeOpt (scanHeaders statMarker statExtMatch fl),
   absolutizeOpt (scanHeaders settlMarker settlExtMatch fl)⟩

/-- Python `f"...{x}"` applied to an `Option`: `None` prints as "None". -/
def pyShowOpt : Option String → String
  | none => "None"
  | some s => s

/-- Model of `get_interest_rate_swap_links`, abstracted over the page fetch.  A raised
exception yields the dictionary with both values `None` plus a logged
error. -/
def get_interest_rate_swap_links (f : Fetch) : IrsLinks × List Event :=
  match f with
  | Fetch.exn m =>
      (⟨none, none⟩, [Event.logError ("Error finding Interest Rate Swap links: " ++ m)])
  | Fetch.ok doc =>
      let links := irsLinksCore doc
      (links,
       [Event.logInfo ("Found Statistics IRS link: " ++ pyShowOpt links.statistics_link),
        Event.logInfo ("Found Settlement Rates IRS link: " ++ pyShowOpt links.settlement_rates_link)])

/-- Python truthiness of the URL arguments (`if not csv_url`, `if
irs_links[...]`): `None` and the empty string are falsy. -/
def pyTruthy : Option String → Bool
  | none => false
  | some s => !(s == "")

/-- Python `os.path.join(a, b)` (POSIX): `b` if absolute; no separator
inserted after an empty or "/"-terminated `a`; otherwise a single "/". -/
def pyPathJoin (a b : String) : String :=
  if strStartsWith b "/" then b
  else if a == "" || strEndsWith a "/" then a ++ b
  else a ++ "/" ++ b

/-- Lines 184-186 of the source: extension written by the IRS statistics
feed, chosen by inspecting the source URL. -/
def irsStatisticsExt (u : String) : String :=
  if strContains (strLower u) ".xls" then
    (if strContains (strLower u) ".xlsx" then "xlsx" else "xls")
  else "csv"

/-- Lines 222-224 of the source: extension written by the IRS
settlement-rates feed, chosen by inspecting the source URL. -/
def irsSettlementExt (u : String) : String :=
  if strContains (strLower u) ".pdf" then "pdf" else "csv"

/-- The ambient oracles a run interacts with: the current date string, the
file GET (+ `raise_for_status`) outcome per URL, and whether `os.makedirs` or
the file write raises (carrying the exception message if so). -/
structure World where
  today : String
  http : String → Except String (List Nat)
  mkdirExc : String → Option String
  writeExc : String → Option String

/-- Shared body of the three download functions: falsy URL returns failure
with no I/O at all; otherwise mkdir, GET and write happen in order inside the
`try`, any raised step falling through to the `except` which logs and returns
failure.  `pre` is the filename prefix, `ext` the chosen extension, `what`
the feed name used in the log messages. -/
def downloadFile (u0 : Option String) (d : String) (w : World)
    (pre ext what : String) : Bool × List Event :=
  match u0 with
  | none => (false, [])
  | some u =>
      if u == "" then (false, [])
      else
        match w.mkdirExc d with
        | some m =>
            (false, [Event.mkdir d, Event.logError ("Error downloading " ++ what ++ ": " ++ m)])
        | none =>
            let fp := pyPathJoin d (pre ++ w.today ++ "." ++ ext)
            match w.http u with
            | Except.error m =>
                (false, [Event.mkdir d, Event.logInfo ("Downloading " ++ what ++ " from " ++ u),
                         Event.httpGet u,
                         Event.logError ("Error downloading " ++ what ++ ": " ++ m)])
            | Except.ok bs =>
                match w.writeExc fp with
                | some m =>
                    (false, [Event.mkdir d, Event.logInfo ("Downloading " ++ what ++ " from " ++ u),
                             Event.httpGet u,
                             Event.logError ("Error downloading " ++ what ++ ": " ++ m)])
                | none =>
                    (true, [Event.mkdir d, Event.logInfo ("Downloading " ++ what ++ " from " ++ u),
                            Event.httpGet u, Event.fileWrite fp bs,
                            Event.logInfo ("Successfully downloaded " ++ what ++ " to " ++ fp)])

/-- Model of `download_derivatives_csv`: fixed prefix and hardcoded ".csv". -/
def download_derivatives_csv (u0 : Option String) (d : String) (w : World) : Bool × List Event :=
  match u0 with
  | none => (false, [])
  | some u =>
      downloadFile (some u) d w "jpx_settlement_prices_" "csv" "derivatives CSV"

/-- Model of `download_irs_statistics`: extension picked from the URL
(csv / xls / xlsx). -/
def download_irs_statistics (u0 : Option String) (d : String) (w : World) : Bool × List Event :=
  match u0 with
  | none => (false, [])
  | some u =>
      downloadFile (some u) d w "irs_statistics_" (irsStatisticsExt u) "IRS Statistics"

/-- Model of `download_irs_settlement_rates`: extension picked from the URL
(csv / pdf). -/
def download_irs_settlement_rates (u0 : Option String) (d : String) (w : World) : Bool × List Event :=
  match u0 with
  | none => (false, [])
  | some u =>
      downloadFile (some u) d w "irs_settlement_rates_" (irsSettlementExt u) "IRS Settlement Rates"

/-- Inputs of one whole run: the two page-fetch outcomes and the download
oracles. -/
structure MainWorld where
  derivFetch : Fetch
  irsFetch : Fetch
  dl : World

/-- Model of `main`: resolve and (when a link was found) download each of the three
feeds in sequence, logging a failure message otherwise; nothing aborts the
run. -/
def mainRun (w : MainWorld) : List Event :=
  let r1 := get_derivatives_csv_link w.derivFetch
  let e1 :=
    if pyTruthy r1.1 then (download_derivatives_csv r1.1 "jpx_data" w.dl).2
    else [Event.logError "Failed to get derivatives CSV link."]
  let r2 := get_interest_rate_swap_links w.irsFetch
  let e2 :=
    if pyTruthy r2.1.statistics_link then
      (download_irs_statistics r2.1.statistics_link "Statistics for Interest Rate Swap(Daily)" w.dl).2
    else [Event.logError "Failed to get Statistics for Interest Rate Swap(Daily) link."]
  let e3 :=
    if pyTruthy r2.1.settlement_rates_link then
      (download_irs_settlement_rates r2.1.settlement_rates_link
        "Settlement Rates for Interest Rate Swap(Daily)" w.dl).2
    else [Event.logError "Failed to get Settlement Rates for Interest Rate Swap(Daily) link."]
  Event.logInfo "Starting JPX Multiple File Downloader" :: (r1.2 ++ e1 ++ r2.2 ++ e2 ++ e3)

/-- Abstract filesystem: an association list from path to byte content, most
recent write first, older entries for the same path removed. -/
def fsWrite (fs : List (String × List Nat)) (p : String) (c : List Nat) :
    List (String × List Nat) :=
  (p, c) :: fs.filter (fun e => !(e.1 == p))

/-- Effect of one event on the filesystem: only writes change it. -/
def applyEvent (fs : List (String × List Nat)) (e : Event) : List (String × List Nat) :=
  match e with
  | Event.fileWrite p c => fsWrite fs p c
  | _ => fs

/-- Replay a trace of events against a filesystem. -/
def runEvents (fs : List (String × List Nat)) (es : List Event) : List (String × List Nat) :=
  es.foldl applyEvent fs

/-- Content of a path after replay. -/
def fsLookup (fs : List (String × List Nat)) (p : String) : Option (List Nat) :=
  (fs.find? (fun e => e.1 == p)).map Prod.snd

/-- Is an event a file write? -/
def isWriteEvent : Event → Bool
  | Event.fileWrite _ _ => true
  | _ => false

/-- Is an event an HTTP GET of a file URL? -/
def isGetEvent : Event → Bool
  | Event.httpGet _ => true
  | _ => false

/-- Number of file-GET attempts in a trace. -/
def countGets (es : List Event) : Nat := (es.filter isGetEvent).length

example : strContains (strLower "A.CsV") ".csv" = true := by decide

example : makeAbsolute jpxBase "/files/data.csv" = "https://www.jpx.co.jp/files/data.csv" := by decide

example :
    (get_derivatives_csv_link (Fetch.ok
      [Node.element "a" [("href", "/files/data.csv")] [Node.text "Daily"]])).1
      = some "https://www.jpx.co.jp/files/data.csv" := by rfl

example :
    (irsLinksCore
      [Node.element "div" [] [Node.text "Statistics for Interest Rate Swap(Daily)"],
       Node.element "a" [("href", "/x.xls")] []]).statistics_link
      = some "https://www.jpx.co.jp/x.xls" := by rfl

/-! ### Basic lemmas about the embedding -/

theorem flatten_text (s : String) : flatten (Node.text s) = [Node.text s] := rfl

theorem flatten_element (t : String) (a : List (String × String)) (cs : List Node) :
    flatten (Node.element t a cs) = Node.element t a cs :: flattenList cs := by
  rw [flatten]

theorem flattenList_nil : flattenList [] = [] := rfl

theorem flattenList_cons (n : Node) (ns : List Node) :
    flattenList (n :: ns) = flatten n ++ flattenList ns := by
  rw [flattenList]

theorem flattenList_append (xs ys : List Node) :
    flattenList (xs ++ ys) = flattenList xs ++ flattenList ys := by
  induction xs with
  | nil => rfl
  | cons n ns ih =>
      rw [List.cons_append, flattenList_cons, flattenList_cons, ih, List.append_assoc]

theorem head?_filter_eq_find? {α : Type} (p : α → Bool) (l : List α) :
    (l.filter p).head? = l.find? p := by
  induction l with
  | nil => rfl
  | cons x xs ih =>
      by_cases hx : p x
      · simp [List.filter_cons, List.find?_cons, hx]
      · simp only [Bool.not_eq_true] at hx
        simp [List.filter_cons, List.find?_cons, hx, ih]

theorem scanHeaders_eq_none (marker : String) (f : String → Bool) (l : List Node)
    (h : ∀ n ∈ l, anchorMatch f n = false) :
    scanHeaders marker f l = none := by
  induction l with
  | nil => rfl
  | cons n rest ih =>
      have hrest : ∀ x ∈ rest, anchorMatch f x = false :=
        fun x hx => h x (List.mem_cons_of_mem n hx)
      have hfind : rest.find? (anchorMatch f) = none :=
        List.find?_eq_none.mpr (fun x hx => by simp [hrest x hx])
      by_cases hn : isMarkerHeader marker n = true
      · simp [scanHeaders, hn, hfind, ih hrest]
      · simp only [Bool.not_eq_true] at hn
        simp [scanHeaders, hn, ih hrest]

theorem scanHeaders_split (marker : String) (f : String → Bool) (l₁ l₂ : List Node) (h : Node)
    (hm : isMarkerHeader marker h = true)
    (hn : ∀ n ∈ l₁, isMarkerHeader marker n = false) :
    scanHeaders marker f (l₁ ++ h :: l₂) = (l₂.find? (anchorMatch f)).map hrefOrEmpty := by
  induction l₁ with
  | nil =>
      simp only [List.nil_append]
      cases hfind : l₂.find? (anchorMatch f) with
      | some a => simp [scanHeaders, hm, hfind]
      | none =>
          have hall : ∀ x ∈ l₂, anchorMatch f x = false :=
            fun x hx => by
              have := List.find?_eq_none.mp hfind x hx
              simpa using this
          simp [scanHeaders, hm, hfind, scanHeaders_eq_none marker f l₂ hall]
  | cons n ns ih =>
      have hn0 : isMarkerHeader marker n = false := hn n (List.mem_cons_self n ns)
      have hns : ∀ x ∈ ns, isMarkerHeader marker x = false :=
        fun x hx => hn x (List.mem_cons_of_mem n hx)
      simp [scanHeaders, hn0, ih hns]

theorem scanHeaders_some (marker : String) (f : String → Bool) (l : List Node) (s : String)
    (h : scanHeaders marker f l = some s) :
    ∃ a ∈ l, anchorMatch f a = true ∧ hrefOrEmpty a = s := by
  induction l with
  | nil => simp [scanHeaders] at h
  | cons n rest ih =>
      by_cases hn : isMarkerHeader marker n = true
      · rw [scanHeaders, if_pos hn] at h
        cases hfind : rest.find? (anchorMatch f) with
        | some a =>
            rw [hfind] at h
            refine ⟨a, List.mem_cons_of_mem n (List.mem_of_find?_eq_some hfind),
              List.find?_some hfind, ?_⟩
            exact (Option.some.injEq _ _).mp h
        | none =>
            rw [hfind] at h
            obtain ⟨a, ha, h1, h2⟩ := ih h
            exact ⟨a, List.mem_cons_of_mem n ha, h1, h2⟩
      · simp only [Bool.not_eq_true] at hn
        rw [scanHeaders, hn] at h
        simp only [Bool.false_eq_true, if_false] at h
        obtain ⟨a, ha, h1, h2⟩ := ih h
        exact ⟨a, List.mem_cons_of_mem n ha, h1, h2⟩

theorem anchorMatch_href (f : String → Bool) (n : Node) (h : anchorMatch f n = true) :
    f (hrefOrEmpty n) = true := by
  cases n with
  | element t a cs =>
      have := (Bool.and_eq_true _ _).mp h
      simpa [hrefOrEmpty] using this.2
  | text s => simp [anchorMatch] at h

theorem strStartsWith_append (s t p : String) (h : strStartsWith s p = true) :
    strStartsWith (s ++ t) p = true := by
  rw [strStartsWith] at h ⊢
  rw [String.data_append]
  rw [List.isPrefixOf_iff_prefix] at h ⊢
  exact h.trans (List.prefix_append s.data t.data)

theorem makeAbsolute_startsWith_http (u : String) :
    strStartsWith (makeAbsolute jpxBase u) "http" = true := by
  rw [makeAbsolute]
  by_cases h1 : strStartsWith u "http" = true
  · rw [if_pos h1]; exact h1
  · have hbase : strStartsWith jpxBase "http" = true := by decide
    simp only [Bool.not_eq_true] at h1
    by_cases h2 : strStartsWith u "/" = true
    · simp only [h1, Bool.false_eq_true, if_false, h2, if_true]
      exact strStartsWith_append jpxBase u "http" hbase
    · simp only [Bool.not_eq_true] at h2
      simp only [h1, h2, Bool.false_eq_true, if_false]
      exact strStartsWith_append (jpxBase ++ "/") u "http"
        (strStartsWith_append jpxBase "/" "http" hbase)

theorem append_ne_empty (s t : String) (h : s ≠ "") : s ++ t ≠ "" := by
  intro he
  apply h
  have hd : (s ++ t).data = [] := by rw [he]
  rw [String.data_append] at hd
  have : s.data = [] := (List.append_eq_nil.mp hd).1
  cases s with
  | mk d => simp only at this; rw [this]

theorem strStartsWith_slash_append (s t : String) (hs : s ≠ "")
    (h : strStartsWith s "/" = false) : strStartsWith (s ++ t) "/" = false := by
  cases s with
  | mk d =>
      cases d with
      | nil => exact absurd rfl hs
      | cons c r =>
          rw [strStartsWith] at h ⊢
          rw [String.data_append]
          simpa [List.isPrefixOf] using (by simpa [List.isPrefixOf] using h)

theorem pyPathJoin_eq (a b : String) (ha : a ≠ "") (ha2 : strEndsWith a "/" = false)
    (hb : strStartsWith b "/" = false) : pyPathJoin a b = a ++ "/" ++ b := by
  have ha' : (a == "") = false := by simpa using ha
  simp [pyPathJoin, hb, ha', ha2]

theorem fsWrite_fsWrite (fs : List (String × List Nat)) (p : String) (c : List Nat) :
    fsWrite (fsWrite fs p c) p c = fsWrite fs p c := by
  simp [fsWrite, List.filter_cons, List.filter_filter]

theorem fsLookup_fsWrite (fs : List (String × List Nat)) (p : String) (c : List Nat) :
    fsLookup (fsWrite fs p c) p = some c := by
  simp [fsLookup, fsWrite, List.find?_cons]

theorem countGets_append (a b : List Event) : countGets (a ++ b) = countGets a + countGets b := by
  simp [countGets, List.filter_append]

/-! ### Shared helper lemmas about the resolvers -/

theorem deriv_link_eq (doc : List Node) (a : Node)
    (h : (flattenList doc).find? isCsvAnchor = some a) :
    (get_derivatives_csv_link (Fetch.ok doc)).1 = some (makeAbsolute jpxBase (hrefOrEmpty a)) := by
  have hh : ((flattenList doc).filter isCsvAnchor).head? = some a := by
    rw [head?_filter_eq_find?]; exact h
  cases hf : (flattenList doc).filter isCsvAnchor with
  | nil => rw [hf] at hh; simp at hh
  | cons b t =>
      rw [hf] at hh
      simp only [List.head?_cons, Option.some.injEq] at hh
      subst hh
      simp [get_derivatives_csv_link, hf]

theorem scan_ne_empty (marker : String) (f : String → Bool) (l : List Node) (s : String)
    (hf0 : f "" = false) (h : scanHeaders marker f l = some s) : (s == "") = false := by
  obtain ⟨a, _, h1, h2⟩ := scanHeaders_some marker f l s h
  have hfa := anchorMatch_href f a h1
  rw [h2] at hfa
  cases hse : s == "" with
  | false => rfl
  | true =>
      have hs : s = "" := by simpa using hse
      rw [hs, hf0] at hfa
      exact absurd hfa (by simp)

theorem irs_stat_eq (doc : List Node) (s : String)
    (h : scanHeaders statMarker statExtMatch (flattenList doc) = some s) :
    (get_interest_rate_swap_links (Fetch.ok doc)).1.statistics_link
      = some (makeAbsolute jpxBase s) := by
  have hs := scan_ne_empty statMarker statExtMatch (flattenList doc) s (by decide) h
  simp [get_interest_rate_swap_links, irsLinksCore, h, absolutizeOpt, hs]

theorem irs_settl_eq (doc : List Node) (s : String)
    (h : scanHeaders settlMarker settlExtMatch (flattenList doc) = some s) :
    (get_interest_rate_swap_links (Fetch.ok doc)).1.settlement_rates_link
      = some (makeAbsolute jpxBase s) := by
  have hs := scan_ne_empty settlMarker settlExtMatch (flattenList doc) s (by decide) h
  simp [get_interest_rate_swap_links, irsLinksCore, h, absolutizeOpt, hs]

/-! ### The claims -/

/-- Claim C1: for every HTML page containing at least one anchor whose href
contains ".csv" (case-insensitively), direct-strategy resolution returns the
href of the first such anchor in document order, converted to an absolute URL
by prefixing the base origin when the href is not absolute. -/
theorem claim_C1 (doc : List Node) (a : Node)
    (h : (flattenList doc).find? isCsvAnchor = some a) :
    (get_derivatives_csv_link (Fetch.ok doc)).1 = some (makeAbsolute jpxBase (hrefOrEmpty a)) :=
  deriv_link_eq doc a h

/-- Concrete page for the C1 witness: a paragraph, then two ".csv" anchors. -/
def c1Doc : List Node :=
  [Node.element "p" [] [Node.text "intro"],
   Node.element "a" [("href", "/files/data.csv")] [Node.text "Daily"],
   Node.element "a" [("href", "/old/other.CSV")] []]

/-- Witness for C1 at a concrete page: the first ".csv" anchor in document
order is returned, absolutized. -/
theorem claim_C1_witness :
    (flattenList c1Doc).find? isCsvAnchor
        = some (Node.element "a" [("href", "/files/data.csv")] [Node.text "Daily"])
      ∧ (get_derivatives_csv_link (Fetch.ok c1Doc)).1
        = some "https://www.jpx.co.jp/files/data.csv" :=
  ⟨rfl, claim_C1 c1Doc (Node.element "a" [("href", "/files/data.csv")] [Node.text "Daily"]) rfl⟩

/-- Statement of the href-resolution rule exactly as the spec words it: an
href starting with "http" is returned unchanged, one starting with "/"
resolves to origin ++ href, any other to origin ++ "/" ++ href. -/
def resolveHrefSpec (origin u : String) : String :=
  if strStartsWith u "http" then u
  else if strStartsWith u "/" then origin ++ u
  else origin ++ "/" ++ u

/-- Claim C3: the href-resolution rule (http-prefixed hrefs unchanged,
"/"-prefixed hrefs get the bare origin, all others get origin plus "/") is
what both the direct resolver and both fields of the anchored-text resolver
apply to the raw href they selected. -/
theorem claim_C3 (doc : List Node) :
    (∀ a : Node, (flattenList doc).find? isCsvAnchor = some a →
      (get_derivatives_csv_link (Fetch.ok doc)).1 = some (resolveHrefSpec jpxBase (hrefOrEmpty a)))
    ∧ (∀ s : String, scanHeaders statMarker statExtMatch (flattenList doc) = some s →
      (get_interest_rate_swap_links (Fetch.ok doc)).1.statistics_link
        = some (resolveHrefSpec jpxBase s))
    ∧ (∀ s : String, scanHeaders settlMarker settlExtMatch (flattenList doc) = some s →
      (get_interest_rate_swap_links (Fetch.ok doc)).1.settlement_rates_link
        = some (resolveHrefSpec jpxBase s)) :=
  ⟨fun a h => deriv_link_eq doc a h,
   fun s h => irs_stat_eq doc s h,
   fun s h => irs_settl_eq doc s h⟩

/-- Concrete page for the C3 witness: both marker sections with a relative,
a root-relative and an absolute link, plus a ".csv" anchor. -/
def c3Doc : List Node :=
  [Node.element "h2" [] [Node.text "Statistics for Interest Rate Swap(Daily)"],
   Node.element "a" [("href", "stats/daily.xls")] [Node.text "XLS"],
   Node.element "h2" [] [Node.text "Settlement Rates for Interest Rate Swap(Daily)"],
   Node.element "a" [("href", "/rates/today.pdf")] [Node.text "PDF"],
   Node.element "a" [("href", "http://cdn.example.test/all.csv")] [Node.text "CSV"]]

/-- Witness for C3 at a concrete page: all three resolvers apply the stated
rule (insert "/", keep a leading "/", keep an absolute URL). -/
theorem claim_C3_witness :
    (get_derivatives_csv_link (Fetch.ok c3Doc)).1 = some "http://cdn.example.test/all.csv"
    ∧ (get_interest_rate_swap_links (Fetch.ok c3Doc)).1.statistics_link
        = some "https://www.jpx.co.jp/stats/daily.xls"
    ∧ (get_interest_rate_swap_links (Fetch.ok c3Doc)).1.settlement_rates_link
        = some "https://www.jpx.co.jp/rates/today.pdf" :=
  ⟨(claim_C3 c3Doc).1
      (Node.element "a" [("href", "http://cdn.example.test/all.csv")] [Node.text "CSV"]) rfl,
   (claim_C3 c3Doc).2.1 "stats/daily.xls" rfl,
   (claim_C3 c3Doc).2.2 "/rates/today.pdf" rfl⟩

/-- Claim C4: the resolver component never lets an exception escape: a raised
network/transport/status/parse exception yields the not-found result plus a
logged error, and a page with zero matching anchors yields the not-found
result plus a logged error (the total Lean embedding makes "no exception
escapes" structural; the reachable outcomes are listed exhaustively). -/
theorem claim_C4 (m : String) (doc : List Node) :
    get_derivatives_csv_link (Fetch.exn m)
      = (none, [Event.logError ("Error finding derivatives CSV link: " ++ m)])
    ∧ ((flattenList doc).filter isCsvAnchor = [] →
        get_derivatives_csv_link (Fetch.ok doc)
          = (none, [Event.logError "No CSV links found on the derivatives settlement page."]))
    ∧ get_interest_rate_swap_links (Fetch.exn m)
      = (⟨none, none⟩, [Event.logError ("Error finding Interest Rate Swap links: " ++ m)]) := by
  refine ⟨rfl, ?_, rfl⟩
  intro h
  simp [get_derivatives_csv_link, h]

/-- Witness for C4 at a concrete failed fetch and a concrete page with no
matching anchor. -/
theorem claim_C4_witness :
    get_derivatives_csv_link (Fetch.ok [Node.element "p" [] [Node.text "empty"]])
      = (none, [Event.logError "No CSV links found on the derivatives settlement page."])
    ∧ get_derivatives_csv_link (Fetch.exn "connection refused")
      = (none, [Event.logError ("Error finding derivatives CSV link: " ++ "connection refused")]) :=
  ⟨(claim_C4 "connection refused" [Node.element "p" [] [Node.text "empty"]]).2.1 rfl,
   (claim_C4 "connection refused" [Node.element "p" [] [Node.text "empty"]]).1⟩

/-- Claim C5: each download function, given an absent URL (None or the empty
string, both falsy in Python), returns failure immediately with an empty
event trace: no HTTP request, no directory creation, no file write. -/
theorem claim_C5 (d : String) (w : World) :
    download_derivatives_csv none d w = (false, [])
    ∧ download_derivatives_csv (some "") d w = (false, [])
    ∧ download_irs_statistics none d w = (false, [])
    ∧ download_irs_statistics (some "") d w = (false, [])
    ∧ download_irs_settlement_rates none d w = (false, [])
    ∧ download_irs_settlement_rates (some "") d w = (false, []) :=
  ⟨rfl, rfl, rfl, rfl, rfl, rfl⟩

/-- Claim C7: the settlement-rates feed picks ".pdf" exactly when the URL
contains ".pdf" case-insensitively and ".csv" otherwise; the statistics feed,
whenever ".xls" occurs in the URL, picks ".xlsx" or ".xls" according to which
occurs. -/
theorem claim_C7 (u : String) :
    irsSettlementExt u = (if strContains (strLower u) ".pdf" then "pdf" else "csv")
    ∧ (strContains (strLower u) ".xls" = true →
        irsStatisticsExt u = (if strContains (strLower u) ".xlsx" then "xlsx" else "xls")) :=
  ⟨rfl, fun h => by simp [irsStatisticsExt, h]⟩

/-- Witness for C7 at concrete URLs of each flavour. -/
theorem claim_C7_witness :
    irsSettlementExt "/a/b.PDF" = "pdf" ∧ irsStatisticsExt "/a/b.xls" = "xls" :=
  ⟨(claim_C7 "/a/b.PDF").1.trans (by decide),
   ((claim_C7 "/a/b.xls").2 (by decide)).trans (by decide)⟩

/-- Anchor predicate exactly as claim C2 words it: an anchor whose href
contains one of the accepted extensions ".pdf", ".csv", ".xls"
(case-insensitively), the same set for every marker. -/
def anchorClaimedMatch (n : Node) : Bool :=
  match n with
  | Node.element t a _ =>
      t == "a" &&
        (strContains (strLower ((attrLookup a "href").getD "")) ".pdf"
         || strContains (strLower ((attrLookup a "href").getD "")) ".csv"
         || strContains (strLower ((attrLookup a "href").getD "")) ".xls")
  | Node.text _ => false

/-- Concrete page refuting C2 as stated: the statistics marker is followed
first by a ".pdf" anchor, then by a ".xls" anchor. -/
def c2Doc : List Node :=
  [Node.element "div" [] [Node.text "Statistics for Interest Rate Swap(Daily)"],
   Node.element "a" [("href", "/x.pdf")] [Node.text "PDF"],
   Node.element "a" [("href", "/y.xls")] [Node.text "XLS"]]

/-- Counterexample to claim C2 as stated: on `c2Doc` the first anchor after
the statistics marker whose href contains one of ".pdf"/".csv"/".xls" is the
".pdf" anchor, yet the statistics resolver does not return it (its walk
accepts only ".xls"/".csv" hrefs) and yields the later ".xls" link instead. -/
theorem claim_C2_counterexample :
    (flattenList c2Doc).find? anchorClaimedMatch
        = some (Node.element "a" [("href", "/x.pdf")] [Node.text "PDF"])
    ∧ (irsLinksCore c2Doc).statistics_link = some "https://www.jpx.co.jp/y.xls"
    ∧ (irsLinksCore c2Doc).statistics_link ≠ some (makeAbsolute jpxBase "/x.pdf") :=
  ⟨rfl, rfl, by decide⟩

/-- Claim C2 (amended): anchored-text resolution walks forward from the first
marker-bearing element in the parser's node-emission order and returns the
first subsequent anchor whose href contains one of that marker's accepted
extensions (".xls"/".csv" for the statistics marker, ".pdf"/".csv" for the
settlement-rates marker, case-insensitively); if a matching anchor only
precedes the marker, or none follows before the document ends, that marker
yields no link. -/
theorem claim_C2 (doc l₁ l₂ : List Node) (h : Node) :
    (flattenList doc = l₁ ++ h :: l₂ → isMarkerHeader statMarker h = true →
      (∀ n ∈ l₁, isMarkerHeader statMarker n = false) →
      (irsLinksCore doc).statistics_link
        = absolutizeOpt ((l₂.find? (anchorMatch statExtMatch)).map hrefOrEmpty))
    ∧ (flattenList doc = l₁ ++ h :: l₂ → isMarkerHeader settlMarker h = true →
      (∀ n ∈ l₁, isMarkerHeader settlMarker n = false) →
      (irsLinksCore doc).settlement_rates_link
        = absolutizeOpt ((l₂.find? (anchorMatch settlExtMatch)).map hrefOrEmpty)) := by
  constructor
  · intro hf hm hn
    show absolutizeOpt (scanHeaders statMarker statExtMatch (flattenList doc)) = _
    rw [hf, scanHeaders_split statMarker statExtMatch l₁ l₂ h hm hn]
  · intro hf hm hn
    show absolutizeOpt (scanHeaders settlMarker settlExtMatch (flattenList doc)) = _
    rw [hf, scanHeaders_split settlMarker settlExtMatch l₁ l₂ h hm hn]

/-- Witness for the amended C2 at concrete pages, one per marker. -/
theorem claim_C2_witness :
    (irsLinksCore c2Doc).statistics_link = some "https://www.jpx.co.jp/y.xls"
    ∧ (irsLinksCore c3Doc).settlement_rates_link = some "https://www.jpx.co.jp/rates/today.pdf" :=
  ⟨(claim_C2 c2Doc []
      [Node.text "Statistics for Interest Rate Swap(Daily)",
       Node.element "a" [("href", "/x.pdf")] [Node.text "PDF"], Node.text "PDF",
       Node.element "a" [("href", "/y.xls")] [Node.text "XLS"], Node.text "XLS"]
      (Node.element "div" [] [Node.text "Statistics for Interest Rate Swap(Daily)"])).1
      rfl rfl (by simp),
   (claim_C2 c3Doc
      [Node.element "h2" [] [Node.text "Statistics for Interest Rate Swap(Daily)"],
       Node.text "Statistics for Interest Rate Swap(Daily)",
       Node.element "a" [("href", "stats/daily.xls")] [Node.text "XLS"], Node.text "XLS"]
      [Node.text "Settlement Rates for Interest Rate Swap(Daily)",
       Node.element "a" [("href", "/rates/today.pdf")] [Node.text "PDF"], Node.text "PDF",
       Node.element "a" [("href", "http://cdn.example.test/all.csv")] [Node.text "CSV"],
       Node.text "CSV"]
      (Node.element "h2" [] [Node.text "Settlement Rates for Interest Rate Swap(Daily)"])).2
      rfl rfl (by decide)⟩

/-- Claim C9: on every input, including the exception path, the anchored-text
resolver yields a record with exactly the two fields statistics_link and
settlement_rates_link (structurally guaranteed by its return type), each
either `none` or an absolute URL (a string starting with "http"); so the key
lookups `main` performs on it cannot fail. -/
theorem claim_C9 (f : Fetch) :
    ((get_interest_rate_swap_links f).1.statistics_link = none
      ∨ ∃ s, (get_interest_rate_swap_links f).1.statistics_link = some s
          ∧ strStartsWith s "http" = true)
    ∧ ((get_interest_rate_swap_links f).1.settlement_rates_link = none
      ∨ ∃ s, (get_interest_rate_swap_links f).1.settlement_rates_link = some s
          ∧ strStartsWith s "http" = true) := by
  cases f with
  | exn m => exact ⟨Or.inl rfl, Or.inl rfl⟩
  | ok doc =>
      constructor
      · cases hs : scanHeaders statMarker statExtMatch (flattenList doc) with
        | none =>
            left
            simp [get_interest_rate_swap_links, irsLinksCore, hs, absolutizeOpt]
        | some s =>
            right
            exact ⟨makeAbsolute jpxBase s, irs_stat_eq doc s hs, makeAbsolute_startsWith_http s⟩
      · cases hs : scanHeaders settlMarker settlExtMatch (flattenList doc) with
        | none =>
            left
            simp [get_interest_rate_swap_links, irsLinksCore, hs, absolutizeOpt]
        | some s =>
            right
            exact ⟨makeAbsolute jpxBase s, irs_settl_eq doc s hs, makeAbsolute_startsWith_http s⟩

/-- Claim C10: the forward walk of the anchored-text strategy starts inside
the marker-bearing element itself: an anchor that is a descendant of the
marker element is eligible and is returned when it is the first matching
anchor in traversal order (regardless of what follows the element). -/
theorem claim_C10 (pre rest cs : List Node) (t : String) (a : List (String × String))
    (anch : Node)
    (hm : isMarkerHeader statMarker (Node.element t a cs) = true)
    (hn : ∀ n ∈ flattenList pre, isMarkerHeader statMarker n = false)
    (hf : (flattenList cs).find? (anchorMatch statExtMatch) = some anch) :
    (irsLinksCore (pre ++ Node.element t a cs :: rest)).statistics_link
      = absolutizeOpt (some (hrefOrEmpty anch)) := by
  have hsplit : flattenList (pre ++ Node.element t a cs :: rest)
      = flattenList pre ++ Node.element t a cs :: (flattenList cs ++ flattenList rest) := by
    rw [flattenList_append, flattenList_cons, flatten_element, List.cons_append]
  have hfind : (flattenList cs ++ flattenList rest).find? (anchorMatch statExtMatch)
      = some anch := by
    rw [List.find?_append, hf]
    rfl
  show absolutizeOpt
      (scanHeaders statMarker statExtMatch (flattenList (pre ++ Node.element t a cs :: rest))) = _
  rw [hsplit,
    scanHeaders_split statMarker statExtMatch (flattenList pre)
      (flattenList cs ++ flattenList rest) (Node.element t a cs) hm hn,
    hfind]
  rfl

/-- Witness for C10: a link inside the same enclosing div as the marker text
is returned even though another matching anchor follows the div. -/
theorem claim_C10_witness :
    (irsLinksCore
      [Node.element "div" []
        [Node.text "Statistics for Interest Rate Swap(Daily)",
         Node.element "a" [("href", "/in.xls")] []],
       Node.element "a" [("href", "/out.xls")] []]).statistics_link
      = some "https://www.jpx.co.jp/in.xls" :=
  claim_C10 [] [Node.element "a" [("href", "/out.xls")] []]
    [Node.text "Statistics for Interest Rate Swap(Daily)",
     Node.element "a" [("href", "/in.xls")] []]
    "div" [] (Node.element "a" [("href", "/in.xls")] []) rfl (by decide) rfl

/-! ### Helper lemmas for the download functions -/

theorem filename_no_slash (p0 t e : String) (hp : p0 ≠ "")
    (hs : strStartsWith p0 "/" = false) :
    strStartsWith (p0 ++ t ++ "." ++ e) "/" = false := by
  have h1 := strStartsWith_slash_append p0 t hp hs
  have h1e := append_ne_empty p0 t hp
  have h2 := strStartsWith_slash_append (p0 ++ t) "." h1e h1
  have h2e := append_ne_empty (p0 ++ t) "." h1e
  exact strStartsWith_slash_append (p0 ++ t ++ ".") e h2e h2

theorem downloadFile_http_error (u d pre ext what m : String) (w : World)
    (hu : u ≠ "") (hh : w.http u = Except.error m) :
    (downloadFile (some u) d w pre ext what).1 = false
    ∧ (∀ p c, Event.fileWrite p c ∉ (downloadFile (some u) d w pre ext what).2)
    ∧ ∃ s, Event.logError s ∈ (downloadFile (some u) d w pre ext what).2 := by
  have hu' : (u == "") = false := by simpa using hu
  cases hmk : w.mkdirExc d with
  | some m2 =>
      refine ⟨by simp [downloadFile, hu', hmk], fun p c => by simp [downloadFile, hu', hmk],
        ⟨"Error downloading " ++ what ++ ": " ++ m2, by simp [downloadFile, hu', hmk]⟩⟩
  | none =>
      refine ⟨by simp [downloadFile, hu', hmk, hh], fun p c => by simp [downloadFile, hu', hmk, hh],
        ⟨"Error downloading " ++ what ++ ": " ++ m, by simp [downloadFile, hu', hmk, hh]⟩⟩

theorem downloadFile_one_get (u d pre ext what : String) (w : World)
    (hu : u ≠ "") (hm : w.mkdirExc d = none) :
    countGets (downloadFile (some u) d w pre ext what).2 = 1 := by
  have hu' : (u == "") = false := by simpa using hu
  cases hh : w.http u with
  | error m => simp [downloadFile, hu', hm, hh, countGets, isGetEvent]
  | ok bs =>
      cases hwx : w.writeExc (pyPathJoin d (pre ++ w.today ++ "." ++ ext)) with
      | some m => simp [downloadFile, hu', hm, hh, hwx, countGets, isGetEvent]
      | none => simp [downloadFile, hu', hm, hh, hwx, countGets, isGetEvent]

theorem downloadFile_mkdir_error (u d pre ext what m2 : String) (w : World)
    (hu : u ≠ "") (hmk : w.mkdirExc d = some m2) :
    (downloadFile (some u) d w pre ext what).1 = false
    ∧ (∀ p c, Event.fileWrite p c ∉ (downloadFile (some u) d w pre ext what).2)
    ∧ ∃ s, Event.logError s ∈ (downloadFile (some u) d w pre ext what).2 := by
  have hu' : (u == "") = false := by simpa using hu
  exact ⟨by simp [downloadFile, hu', hmk], fun p c => by simp [downloadFile, hu', hmk],
    ⟨"Error downloading " ++ what ++ ": " ++ m2, by simp [downloadFile, hu', hmk]⟩⟩

theorem downloadFile_write_error (u d pre ext what m2 : String) (w : World) (bs : List Nat)
    (hu : u ≠ "") (hmk : w.mkdirExc d = none) (hh : w.http u = Except.ok bs)
    (hwx : w.writeExc (pyPathJoin d (pre ++ w.today ++ "." ++ ext)) = some m2) :
    (downloadFile (some u) d w pre ext what).1 = false
    ∧ (∀ p c, Event.fileWrite p c ∉ (downloadFile (some u) d w pre ext what).2)
    ∧ ∃ s, Event.logError s ∈ (downloadFile (some u) d w pre ext what).2 := by
  have hu' : (u == "") = false := by simpa using hu
  exact ⟨by simp [downloadFile, hu', hmk, hh, hwx],
    fun p c => by simp [downloadFile, hu', hmk, hh, hwx],
    ⟨"Error downloading " ++ what ++ ": " ++ m2, by simp [downloadFile, hu', hmk, hh, hwx]⟩⟩

theorem downloadFile_error (u d pre ext what : String) (w : World) (hu : u ≠ "")
    (herr : w.mkdirExc d ≠ none
      ∨ (∃ m, w.http u = Except.error m)
      ∨ (∃ m, w.writeExc (pyPathJoin d (pre ++ w.today ++ "." ++ ext)) = some m)) :
    (downloadFile (some u) d w pre ext what).1 = false
    ∧ (∀ p c, Event.fileWrite p c ∉ (downloadFile (some u) d w pre ext what).2)
    ∧ ∃ s, Event.logError s ∈ (downloadFile (some u) d w pre ext what).2 := by
  rcases herr with hmk | ⟨m, hh⟩ | ⟨m, hwx⟩
  · cases hmkc : w.mkdirExc d with
    | none => exact absurd hmkc hmk
    | some m2 => exact downloadFile_mkdir_error u d pre ext what m2 w hu hmkc
  · exact downloadFile_http_error u d pre ext what m w hu hh
  · cases hmkc : w.mkdirExc d with
    | some m2 => exact downloadFile_mkdir_error u d pre ext what m2 w hu hmkc
    | none =>
        cases hh : w.http u with
        | error m3 => exact downloadFile_http_error u d pre ext what m3 w hu hh
        | ok bs => exact downloadFile_write_error u d pre ext what m w bs hu hmkc hh hwx

theorem downloadFile_gets (u d pre ext what : String) (w : World) (hu : u ≠ "") :
    countGets (downloadFile (some u) d w pre ext what).2
      = if w.mkdirExc d = none then 1 else 0 := by
  have hu' : (u == "") = false := by simpa using hu
  cases hmk : w.mkdirExc d with
  | some m => simp [downloadFile, hu', hmk, countGets, isGetEvent]
  | none =>
      rw [if_pos rfl]
      exact downloadFile_one_get u d pre ext what w hu hmk

theorem resolver_no_gets_deriv (f : Fetch) : countGets (get_derivatives_csv_link f).2 = 0 := by
  cases f with
  | exn m => rfl
  | ok doc =>
      cases hf : (flattenList doc).filter isCsvAnchor with
      | nil => simp [get_derivatives_csv_link, hf, countGets, isGetEvent]
      | cons a t => simp [get_derivatives_csv_link, hf, countGets, isGetEvent]

theorem resolver_no_gets_irs (f : Fetch) : countGets (get_interest_rate_swap_links f).2 = 0 := by
  cases f with
  | exn m => rfl
  | ok doc => rfl

theorem countGets_cons_notGet (e : Event) (l : List Event) (h : isGetEvent e = false) :
    countGets (e :: l) = countGets l := by
  simp [countGets, List.filter_cons, h]

theorem mainRun_eq (mw : MainWorld) :
    mainRun mw
      = Event.logInfo "Starting JPX Multiple File Downloader"
        :: ((get_derivatives_csv_link mw.derivFetch).2
          ++ (if pyTruthy (get_derivatives_csv_link mw.derivFetch).1 then
                (download_derivatives_csv (get_derivatives_csv_link mw.derivFetch).1
                  "jpx_data" mw.dl).2
              else [Event.logError "Failed to get derivatives CSV link."])
          ++ (get_interest_rate_swap_links mw.irsFetch).2
          ++ (if pyTruthy (get_interest_rate_swap_links mw.irsFetch).1.statistics_link then
                (download_irs_statistics (get_interest_rate_swap_links mw.irsFetch).1.statistics_link
                  "Statistics for Interest Rate Swap(Daily)" mw.dl).2
              else [Event.logError "Failed to get Statistics for Interest Rate Swap(Daily) link."])
          ++ (if pyTruthy (get_interest_rate_swap_links mw.irsFetch).1.settlement_rates_link then
                (download_irs_settlement_rates
                  (get_interest_rate_swap_links mw.irsFetch).1.settlement_rates_link
                  "Settlement Rates for Interest Rate Swap(Daily)" mw.dl).2
              else [Event.logError
                "Failed to get Settlement Rates for Interest Rate Swap(Daily) link."])) := rfl

theorem countGets_branch_deriv (o : Option String) (d msg : String) (w : World) :
    countGets (if pyTruthy o then (download_derivatives_csv o d w).2 else [Event.logError msg])
      = if pyTruthy o then (if w.mkdirExc d = none then 1 else 0) else 0 := by
  cases o with
  | none => simp [pyTruthy, countGets, isGetEvent]
  | some u0 =>
      by_cases hu0 : u0 = ""
      · subst hu0
        simp [pyTruthy, countGets, isGetEvent]
      · have ht : pyTruthy (some u0) = true := by simp [pyTruthy, hu0]
        rw [ht]
        simp only [if_true]
        exact downloadFile_gets u0 d "jpx_settlement_prices_" "csv" "derivatives CSV" w hu0

theorem countGets_branch_stats (o : Option String) (d msg : String) (w : World) :
    countGets (if pyTruthy o then (download_irs_statistics o d w).2 else [Event.logError msg])
      = if pyTruthy o then (if w.mkdirExc d = none then 1 else 0) else 0 := by
  cases o with
  | none => simp [pyTruthy, countGets, isGetEvent]
  | some u0 =>
      by_cases hu0 : u0 = ""
      · subst hu0
        simp [pyTruthy, countGets, isGetEvent]
      · have ht : pyTruthy (some u0) = true := by simp [pyTruthy, hu0]
        rw [ht]
        simp only [if_true]
        exact downloadFile_gets u0 d "irs_statistics_" (irsStatisticsExt u0) "IRS Statistics"
          w hu0

theorem countGets_branch_settl (o : Option String) (d msg : String) (w : World) :
    countGets (if pyTruthy o then (download_irs_settlement_rates o d w).2
        else [Event.logError msg])
      = if pyTruthy o then (if w.mkdirExc d = none then 1 else 0) else 0 := by
  cases o with
  | none => simp [pyTruthy, countGets, isGetEvent]
  | some u0 =>
      by_cases hu0 : u0 = ""
      · subst hu0
        simp [pyTruthy, countGets, isGetEvent]
      · have ht : pyTruthy (some u0) = true := by simp [pyTruthy, hu0]
        rw [ht]
        simp only [if_true]
        exact downloadFile_gets u0 d "irs_settlement_rates_" (irsSettlementExt u0)
          "IRS Settlement Rates" w hu0

/-- Claim C6: for every successful download with a fixed today value, the
written file path exactly equals directory/prefix_date.ext, the file
afterwards contains exactly the fetched bytes, and replaying the run a second
time on the same day leaves the filesystem unchanged (the existing file is
overwritten, no second file appears). -/
theorem claim_C6 (w : World) (u d : String) (b : List Nat) (fs : List (String × List Nat))
    (hu : u ≠ "") (hd : d ≠ "") (hds : strEndsWith d "/" = false)
    (hm : w.mkdirExc d = none) (hh : w.http u = Except.ok b)
    (hw : w.writeExc (d ++ "/" ++ ("jpx_settlement_prices_" ++ w.today ++ ".csv")) = none) :
    (download_derivatives_csv (some u) d w).1 = true
    ∧ (download_derivatives_csv (some u) d w).2.filter isWriteEvent
        = [Event.fileWrite (d ++ "/" ++ ("jpx_settlement_prices_" ++ w.today ++ ".csv")) b]
    ∧ fsLookup (runEvents fs (download_derivatives_csv (some u) d w).2)
        (d ++ "/" ++ ("jpx_settlement_prices_" ++ w.today ++ ".csv")) = some b
    ∧ runEvents (runEvents fs (download_derivatives_csv (some u) d w).2)
        (download_derivatives_csv (some u) d w).2
        = runEvents fs (download_derivatives_csv (some u) d w).2 := by
  have hu' : (u == "") = false := by simpa using hu
  have hpath : pyPathJoin d ("jpx_settlement_prices_" ++ w.today ++ "." ++ "csv")
      = d ++ "/" ++ ("jpx_settlement_prices_" ++ w.today ++ ".csv") := by
    rw [pyPathJoin_eq d _ hd hds
      (filename_no_slash "jpx_settlement_prices_" w.today "csv" (by decide) (by decide))]
    rw [String.append_assoc ("jpx_settlement_prices_" ++ w.today) "." "csv"]
    simp only [show ("." : String) ++ "csv" = ".csv" from rfl]
  have hev : download_derivatives_csv (some u) d w
      = (true,
         [Event.mkdir d,
          Event.logInfo ("Downloading derivatives CSV from " ++ u),
          Event.httpGet u,
          Event.fileWrite (d ++ "/" ++ ("jpx_settlement_prices_" ++ w.today ++ ".csv")) b,
          Event.logInfo ("Successfully downloaded derivatives CSV to "
            ++ (d ++ "/" ++ ("jpx_settlement_prices_" ++ w.today ++ ".csv")))]) := by
    simp [download_derivatives_csv, downloadFile, hu', hm, hpath, hh, hw]
  refine ⟨by rw [hev], ?_, ?_, ?_⟩
  · rw [hev]
    simp [isWriteEvent]
  · rw [hev]
    simp only [runEvents, List.foldl, applyEvent]
    exact fsLookup_fsWrite fs (d ++ "/" ++ ("jpx_settlement_prices_" ++ w.today ++ ".csv")) b
  · rw [hev]
    simp only [runEvents, List.foldl, applyEvent]
    exact fsWrite_fsWrite fs (d ++ "/" ++ ("jpx_settlement_prices_" ++ w.today ++ ".csv")) b

/-- Oracles for the C6 witness: fixed date, every GET returns the bytes
"a,b,c", no filesystem errors. -/
def c6World : World :=
  ⟨"20260101", fun _ => Except.ok [97, 44, 98, 44, 99], fun _ => none, fun _ => none⟩

/-- Witness for C6 at concrete inputs: the end-to-end scenario of the spec
(bytes written to jpx_data/jpx_settlement_prices_20260101.csv, second run
changes nothing). -/
theorem claim_C6_witness :
    (download_derivatives_csv (some "https://www.jpx.co.jp/files/data.csv") "jpx_data"
        c6World).1 = true
    ∧ fsLookup
        (runEvents []
          (download_derivatives_csv (some "https://www.jpx.co.jp/files/data.csv") "jpx_data"
            c6World).2)
        "jpx_data/jpx_settlement_prices_20260101.csv" = some [97, 44, 98, 44, 99]
    ∧ runEvents
        (runEvents []
          (download_derivatives_csv (some "https://www.jpx.co.jp/files/data.csv") "jpx_data"
            c6World).2)
        (download_derivatives_csv (some "https://www.jpx.co.jp/files/data.csv") "jpx_data"
          c6World).2
      = runEvents []
          (download_derivatives_csv (some "https://www.jpx.co.jp/files/data.csv") "jpx_data"
            c6World).2 := by
  have h := claim_C6 c6World "https://www.jpx.co.jp/files/data.csv" "jpx_data"
    [97, 44, 98, 44, 99] [] (by decide) (by decide) (by decide) rfl rfl rfl
  exact ⟨h.1, h.2.2.1, h.2.2.2⟩

/-- Claim C8: every network, filesystem, or HTTP-status error inside a
download function — a raising `os.makedirs`, a failing or non-2xx GET, or a
raising file write — is caught, logged and reported as failure (False) with
no file written, never re-raised (re-raising is unrepresentable in the total
embedding); and every run attempts each feed exactly once with no retry: the
number of file GETs it performs is, summed per feed, one exactly when that
feed resolved to a truthy link and its directory creation succeeded, each
summand independent of every other feed's outcome, and the run always
produces its complete trace. -/
theorem claim_C8 (w : World) (u d : String) :
    (u ≠ "" →
       w.mkdirExc d ≠ none ∨ (∃ m, w.http u = Except.error m)
         ∨ (∃ m, w.writeExc
             (pyPathJoin d ("jpx_settlement_prices_" ++ w.today ++ "." ++ "csv")) = some m) →
       (download_derivatives_csv (some u) d w).1 = false
       ∧ (∀ p c, Event.fileWrite p c ∉ (download_derivatives_csv (some u) d w).2)
       ∧ ∃ s, Event.logError s ∈ (download_derivatives_csv (some u) d w).2)
    ∧ (u ≠ "" →
       w.mkdirExc d ≠ none ∨ (∃ m, w.http u = Except.error m)
         ∨ (∃ m, w.writeExc
             (pyPathJoin d ("irs_statistics_" ++ w.today ++ "." ++ irsStatisticsExt u))
             = some m) →
       (download_irs_statistics (some u) d w).1 = false
       ∧ (∀ p c, Event.fileWrite p c ∉ (download_irs_statistics (some u) d w).2)
       ∧ ∃ s, Event.logError s ∈ (download_irs_statistics (some u) d w).2)
    ∧ (u ≠ "" →
       w.mkdirExc d ≠ none ∨ (∃ m, w.http u = Except.error m)
         ∨ (∃ m, w.writeExc
             (pyPathJoin d ("irs_settlement_rates_" ++ w.today ++ "." ++ irsSettlementExt u))
             = some m) →
       (download_irs_settlement_rates (some u) d w).1 = false
       ∧ (∀ p c, Event.fileWrite p c ∉ (download_irs_settlement_rates (some u) d w).2)
       ∧ ∃ s, Event.logError s ∈ (download_irs_settlement_rates (some u) d w).2)
    ∧ (∀ mw : MainWorld,
        countGets (mainRun mw)
          = (if pyTruthy (get_derivatives_csv_link mw.derivFetch).1 then
               (if mw.dl.mkdirExc "jpx_data" = none then 1 else 0) else 0)
            + (if pyTruthy (get_interest_rate_swap_links mw.irsFetch).1.statistics_link then
               (if mw.dl.mkdirExc "Statistics for Interest Rate Swap(Daily)" = none
                then 1 else 0) else 0)
            + (if pyTruthy (get_interest_rate_swap_links mw.irsFetch).1.settlement_rates_link
               then
               (if mw.dl.mkdirExc "Settlement Rates for Interest Rate Swap(Daily)" = none
                then 1 else 0) else 0)) := by
  refine ⟨fun hu herr => downloadFile_error u d "jpx_settlement_prices_" "csv"
      "derivatives CSV" w hu herr,
    fun hu herr => downloadFile_error u d "irs_statistics_" (irsStatisticsExt u)
      "IRS Statistics" w hu herr,
    fun hu herr => downloadFile_error u d "irs_settlement_rates_" (irsSettlementExt u)
      "IRS Settlement Rates" w hu herr,
    ?_⟩
  intro mw
  rw [mainRun_eq,
    countGets_cons_notGet (Event.logInfo "Starting JPX Multiple File Downloader") _ rfl,
    countGets_append, countGets_append,
    countGets_append, countGets_append, resolver_no_gets_deriv, resolver_no_gets_irs,
    countGets_branch_deriv, countGets_branch_stats, countGets_branch_settl]
  simp [Nat.zero_add, Nat.add_zero]

/-- Download oracles for the C8 witness: every file GET fails. -/
def c8World : World := ⟨"20260101", fun _ => Except.error "boom", fun _ => none, fun _ => none⟩

/-- Download oracles for the filesystem case of the C8 witness: GETs would
succeed but directory creation and file writes raise. -/
def c8FsWorld : World :=
  ⟨"20260101", fun _ => Except.ok [49], fun _ => some "disk full", fun _ => some "disk full"⟩

/-- Run inputs for the C8 witness: both page fetches fail too. -/
def c8Main : MainWorld := ⟨Fetch.exn "down", Fetch.exn "down", c8World⟩

/-- Witness for C8 at concrete inputs: a failing GET and a raising makedirs
each give failure with no write, and a run with no resolved links performs
zero file GETs. -/
theorem claim_C8_witness :
    (download_derivatives_csv (some "x.csv") "d" c8World).1 = false
    ∧ (download_irs_statistics (some "x.xls") "d" c8FsWorld).1 = false
    ∧ countGets (mainRun c8Main) = 0 := by
  refine ⟨((claim_C8 c8World "x.csv" "d").1 (by decide)
      (Or.inr (Or.inl ⟨"boom", rfl⟩))).1,
    ((claim_C8 c8FsWorld "x.xls" "d").2.1 (by decide) (Or.inl (by decide))).1, ?_⟩
  have h := (claim_C8 c8World "x.csv" "d").2.2.2 c8Main
  exact h.trans (by decide)
